import Mathlib

/-!
Shallow embedding of the `ambiance` LED-controller firmware (`src/code.py`) and
proofs about its control plane: the MQTT message dispatcher, the retry/backoff
machinery, the status-LED heartbeat, the blocking alert mode, and the startup
sequence.

Conventions of the embedding:
* Python `int(message)` / `float(message)` are modelled by `pyInt` / `pyFloat`
  returning `Option` (with `none` standing for the `ValueError` the Python
  builtins raise on malformed input); floats are modelled as rationals.
* Mutable module globals become fields of explicit state structures that are
  threaded through the functions.
* A Python function body that may raise is modelled as `Except σ σ`, where the
  `error` constructor carries the state at the point the exception escaped;
  the enclosing `try/except` of the source then maps `error` back to a plain
  state.
* Wall-clock times (`time.time()`) are natural numbers of seconds.  Note that
  the guard `now - ts > 5` behaves identically under real subtraction and
  truncated `Nat` subtraction: both hold exactly when `now > ts + 5`.
-/

namespace Ambiance

/-- Surrounding-whitespace removal, as Python's numeric constructors do
before parsing. -/
def trimChars (cs : List Char) : List Char :=
  ((cs.dropWhile Char.isWhitespace).reverse.dropWhile Char.isWhitespace).reverse

/-- Value of a nonempty all-digit character list, `none` otherwise. -/
def digitsVal (cs : List Char) : Option Nat :=
  if cs ≠ [] ∧ cs.all Char.isDigit then
    some (cs.foldl (fun n c => n * 10 + (c.toNat - 48)) 0)
  else none

/-- Optional-sign handling shared by the numeric parsers: the sign factor and
the remaining characters. -/
def signSplit (cs : List Char) : Int × List Char :=
  match cs with
  | c :: rest =>
    if c = '-' then (-1, rest) else if c = '+' then (1, rest) else (1, cs)
  | [] => (1, [])

/-- Models Python `int(message)` on the message payloads: optional surrounding
whitespace, an optional sign, then decimal digits; anything else raises
`ValueError`, modelled as `none`. -/
def pyInt (s : String) : Option Int :=
  let (sgn, u) := signSplit (trimChars s.data)
  (digitsVal u).map fun n => sgn * n

/-- Models Python `float(message)` on plain decimal literals (optional sign,
integer part, optional fractional part), returning a rational; malformed input
raises `ValueError`, modelled as `none`. -/
def pyFloat (s : String) : Option ℚ :=
  let (sgn, u) := signSplit (trimChars s.data)
  match u.splitOn '.' with
  | [a] => (digitsVal a).map fun n => ((sgn * n : Int) : ℚ)
  | [a, b] =>
    if a = [] ∧ b = [] then none
    else
      match (if a = [] then some 0 else digitsVal a),
            (if b = [] then some 0 else digitsVal b) with
      | some n, some f =>
        some ((sgn : ℚ) * ((n : ℚ) + (f : ℚ) / ((10 : ℚ) ^ b.length)))
      | _, _ => none
  | _ => none

/-- Hexadecimal digit value of a character. -/
def hexDigitVal (c : Char) : Option Nat :=
  if c.isDigit then some (c.toNat - Char.toNat (Char.ofNat 48))
  else if Char.ofNat 97 ≤ c ∧ c ≤ Char.ofNat 102 then some (c.toNat - 97 + 10)
  else if Char.ofNat 65 ≤ c ∧ c ≤ Char.ofNat 70 then some (c.toNat - 65 + 10)
  else none

/-- Modelled from the spec: colors in the script mini-language are 24-bit hex
literals `#RRGGBB` (spec 4.2); the command parser itself lives in the
`sequencer` / `script_exec` modules, which are not part of the provided
sources. -/
def parseColor (s : String) : Option Nat :=
  match s.data with
  | c :: rest =>
    if c = Char.ofNat 35 ∧ rest.length = 6 then
      rest.foldl (fun acc d => acc.bind fun n => (hexDigitVal d).map fun v => n * 16 + v)
        (some 0)
    else none
  | _ => none

/-- Modelled from the spec: a parsed command of the script mini-language
(spec 4.2): `Fill <color> <repeat>`, `SlowFill <duration> (<color> <count>)+`,
`Slide <duration> <offset>`. -/
inductive Command where
  | fill (color : Nat) (count : Nat)
  | slowFill (duration : ℚ) (segments : List (Nat × Nat))
  | slide (duration : ℚ) (offset : Nat)
  deriving Repr, DecidableEq

/-- Modelled from the spec: the `(<color> <count>)+` argument list of
`SlowFill` (spec 4.2). -/
def parsePairs : List String → Option (List (Nat × Nat))
  | [] => some []
  | [_] => none
  | c :: n :: rest => do
    let col ← parseColor c
    let k ← pyInt n
    if k < 0 then none
    else do
      let tail ← parsePairs rest
      pure ((col, k.toNat) :: tail)

/-- Modelled from the spec: one command is a verb token followed by
space-separated arguments (spec 4.2); a malformed command or out-of-range
value fails the parse. -/
def parseCommand (s : String) : Option Command :=
  match (s.splitOn " ").filter (fun w => !w.isEmpty) with
  | ["Fill", c, n] => do
    let col ← parseColor c
    let k ← pyInt n
    if k < 0 then none else pure (Command.fill col k.toNat)
  | "SlowFill" :: d :: rest => do
    let dur ← pyFloat d
    let segs ← parsePairs rest
    if segs.isEmpty then none else pure (Command.slowFill dur segs)
  | ["Slide", d, o] => do
    let dur ← pyFloat d
    let off ← pyInt o
    if off < 0 then none else pure (Command.slide dur off.toNat)
  | _ => none

/-- Modelled from the spec: a script is a `;`-separated sequence of commands;
parsing is total and a malformed command fails the whole parse (spec 4.2). -/
def parseScript (s : String) : Option (List Command) :=
  (s.splitOn ";").mapM parseCommand

/-- State of `sequencer.NeoWrapper` as far as the control plane reads or
writes it.  Modelled from the spec: the `sequencer` module is not part of the
provided sources; per spec 3, the pixel buffer has an active `len`
(`1..=max_len`), a fixed `max_len`, and a `brightness` in `[0,1]`. -/
structure NeoWrapperSt where
  max_len : Nat
  len : Nat
  brightness : ℚ
  deriving Repr, DecidableEq

/-- State of a `script_exec` script executor (`InitScriptExec` /
`EventScriptExec`).  Modelled from the spec: the `script_exec` module is not
part of the provided sources; per spec 4.4, an executor owns the current
script (we keep the accepted source text), and we record the number of
`trigger()` calls and of `loop()` ticks in order to observe them. -/
structure ScriptSt where
  script : Option String
  triggerCount : Nat
  ticks : Nat
  deriving Repr, DecidableEq

/-- Modelled from the spec: `newScript` parses the text and, on success,
atomically swaps in the new script; on failure it leaves prior state untouched
and reports the error upward (spec 4.4) — i.e. it raises, which
`_mqtt_on_message`'s `except` then catches. -/
def newScript (s : ScriptSt) (text : String) : Except Unit ScriptSt :=
  match parseScript text with
  | some _ => Except.ok { s with script := some text }
  | none => Except.error ()

/-- Modelled from the spec: `EventScriptExec.trigger()` restarts the event
script from its beginning (spec 4.4); the embedding records the number of
invocations. -/
def trigger (s : ScriptSt) : ScriptSt := { s with triggerCount := s.triggerCount + 1 }

/-- Modelled from the spec: a script executor `loop()` tick delegates to the
sequencer (spec 4.4); the embedding records the number of ticks. -/
def scriptTick (s : ScriptSt) : ScriptSt := { s with ticks := s.ticks + 1 }

/-- The mutable globals touched by `_mqtt_on_message`: the pixel buffer
wrapper, the two script executors, and `_last_trigger`. -/
structure AmbianceSt where
  neo : NeoWrapperSt
  init_script : ScriptSt
  event_script : ScriptSt
  last_trigger : Option String
  deriving Repr, DecidableEq

/-- Body of the `try:` block of `_mqtt_on_message` (code.py lines 216-233).
`Except.error s` means an exception escaped the dispatch leaving the globals
in state `s`; `Except.ok s` is normal completion.

Faithfulness notes, per branch:
* `/length` (lines 217-220): `int(message)` may raise `ValueError` (before any
  state change); in range `[1, max_len]` the length is set to `int(message)`.
* `/brightness` (lines 221-224): line 222 assigns the misspelled local
  `valie`, so line 223 reads the never-assigned local `value` and raises
  `UnboundLocalError`; when `float(message)` itself raises `ValueError` that
  happens first.  Either way the branch raises without changing any state, so
  the brightness setter is never reached.
* `/script/init`, `/script/event` (lines 225-228): `newScript` raises on a
  parse failure, leaving state untouched.
* `/event/trigger` (lines 229-233): fire `trigger()` when the payload differs
  from `_last_trigger`, then record the payload.
* any other topic: fall through the `elif` chain, no effect. -/
def mqttDispatch (root : String) (st : AmbianceSt) (topic message : String) :
    Except AmbianceSt AmbianceSt :=
  if topic = root ++ "/length" then
    match pyInt message with
    | none => Except.error st
    | some v =>
      Except.ok (if 1 ≤ v ∧ v ≤ (st.neo.max_len : Int) then
        { st with neo := { st.neo with len := v.toNat } } else st)
  else if topic = root ++ "/brightness" then
    match pyFloat message with
    | none => Except.error st
    | some _ => Except.error st
  else if topic = root ++ "/script/init" then
    match newScript st.init_script message with
    | Except.ok sc => Except.ok { st with init_script := sc }
    | Except.error _ => Except.error st
  else if topic = root ++ "/script/event" then
    match newScript st.event_script message with
    | Except.ok sc => Except.ok { st with event_script := sc }
    | Except.error _ => Except.error st
  else if topic = root ++ "/event/trigger" then
    let st1 := if st.last_trigger ≠ some message then
      { st with event_script := trigger st.event_script } else st
    Except.ok { st1 with last_trigger := some message }
  else Except.ok st

/-- `_mqtt_on_message` (code.py lines 209-235): the dispatch wrapped in
`try/except Exception`, which logs and swallows any exception, keeping the
globals as they were when the exception was raised. -/
def mqttOnMessage (root : String) (st : AmbianceSt) (topic message : String) :
    AmbianceSt :=
  match mqttDispatch root st topic message with
  | Except.ok s => s
  | Except.error s => s

/-- One delivery on the event-trigger topic. -/
def onTrigger (root : String) (st : AmbianceSt) (m : String) : AmbianceSt :=
  mqttOnMessage root st (root ++ "/event/trigger") m

/-- The mutable globals of the heartbeat `blink()` (code.py lines 271-281):
the status LED's brightness, `_last_blink_ts`, `_next_blink`, and the
`NEO_DONT_BLINK` flag. -/
structure BlinkSt where
  ledBrightness : ℚ
  last_blink_ts : Nat
  next_blink : Nat
  dontBlink : Bool
  deriving Repr, DecidableEq

/-- `blink()` (code.py lines 273-281): return immediately when
`NEO_DONT_BLINK`; otherwise set the LED brightness from the current phase
(`0.1` when `_next_blink` is truthy, else `0`) and, when more than one second
has passed since `_last_blink_ts`, record `now` and flip the phase. -/
def blink (s : BlinkSt) (now : Nat) : BlinkSt :=
  if s.dontBlink then s
  else
    let s1 := { s with ledBrightness := if s.next_blink ≠ 0 then (1 : ℚ)/10 else 0 }
    if now - s1.last_blink_ts > 1 then
      { s1 with last_blink_ts := now, next_blink := 1 - s1.next_blink }
    else s1

/-- `NEO_DONT_BLINK = NEO_STRIP_PIN == "ONBOARD"` as set by `loop()`
(code.py line 297). -/
def neoDontBlink (pin : String) : Bool := pin == "ONBOARD"

/-- The phase-flip times produced by a sequence of `blink()` calls at the
given clock readings: the calls at which `_next_blink` changed. -/
def blinkFlipTimes (s : BlinkSt) : List Nat → List Nat
  | [] => []
  | t :: ts =>
    if (blink s t).next_blink ≠ s.next_blink then t :: blinkFlipTimes (blink s t) ts
    else blinkFlipTimes (blink s t) ts

/-- Value of `blink_error`'s `num_loop` variable before iteration `n` of its
`while` loop (code.py lines 264-269): each iteration decrements it. -/
def blinkErrorState (numLoop : Int) : Nat → Int
  | 0 => numLoop
  | n + 1 => blinkErrorState numLoop n - 1

/-- The `while` guard of `blink_error` (code.py line 264) before iteration
`n`: `num_loop != 0 and _boot_btn.value`, with `btn n` the value read from the
boot button at the `n`-th poll (`true` = not pressed, the pull-up default). -/
def blinkErrorGuard (numLoop : Int) (btn : Nat → Bool) (n : Nat) : Bool :=
  (blinkErrorState numLoop n != 0) && btn n

/-- `blink_error` returns (for a given error code it only changes the LED
color) iff its `while` guard eventually turns false. -/
def blinkErrorTerminates (numLoop : Int) (btn : Nat → Bool) : Prop :=
  ∃ n, blinkErrorGuard numLoop btn n = false

/-- Exit status of `init_wifi()` (code.py lines 142-158). -/
inductive WifiResult where
  /-- `init_wifi` returned normally. -/
  | ok
  /-- `init_wifi` raised `ValueError` (SSID missing, line 150). -/
  | errNoSsid
  /-- `init_wifi` re-raised `ConnectionError` (line 157). -/
  | errConnect
  deriving Repr, DecidableEq

/-- Outcome of `init_wifi()`: its exit status plus whether the blocking alert
mode `blink_error` was entered on the way. -/
structure WifiOutcome where
  result : WifiResult
  alertMode : Bool
  deriving Repr, DecidableEq

/-- `init_wifi()` (code.py lines 142-158): a missing SSID raises `ValueError`
at once, before any `blink_error`; with credentials present, a failed
`wifi.radio.connect` enters alert mode (`blink_error(CODE_WIFI_FAILED)`, with
the default `num_loop=-1`) and then re-raises the `ConnectionError`.
`connectOk` abstracts whether `wifi.radio.connect` succeeds. -/
def init_wifi (ssid : Option String) (connectOk : Bool) : WifiOutcome :=
  match ssid with
  | none => ⟨WifiResult.errNoSsid, false⟩
  | some _ => if connectOk then ⟨WifiResult.ok, false⟩ else ⟨WifiResult.errConnect, true⟩

/-- The `_mqtt` global, which the source overloads: `None` (networking
disabled), a connected client object, or the string `"retry"`. -/
inductive MqttCtl where
  | off
  | client
  | retry
  deriving Repr, DecidableEq

/-- Python truthiness of the `MQTT_BROKER_IP` setting: `if not host` is taken
for an absent variable (`None`) and for the empty string. -/
def pyTruthy : Option String → Bool
  | none => false
  | some s => !s.isEmpty

/-- `init_mqtt()` (code.py lines 160-196): with no broker host configured it
returns at once leaving `_mqtt = None`; otherwise it attempts a connection,
catching any exception and leaving `_mqtt = "retry"` on failure (after a
bounded `blink_error(..., num_loop=3)`).  `connectOk` abstracts whether
`_mqtt.connect()` succeeds. -/
def init_mqtt (host : Option String) (connectOk : Bool) : MqttCtl :=
  if pyTruthy host then (if connectOk then MqttCtl.client else MqttCtl.retry)
  else MqttCtl.off

/-- The reconnection attempts made by the retry branch of `_mqtt_loop`
(code.py lines 241-246), given `_mqtt_retry_ts = ts` and a sequence of loop
invocations `(now, connectOk)`: an attempt (`init_mqtt()`) happens when
`now - ts > 5`, after which `_mqtt_retry_ts` is set to the current time; a
successful attempt leaves the `"retry"` state, a failed one stays in it. -/
def retryAttempts (ts : Nat) : List (Nat × Bool) → List Nat
  | [] => []
  | (now, connectOk) :: rest =>
    if now - ts > 5 then
      now :: (if connectOk then [] else retryAttempts now rest)
    else retryAttempts ts rest

/-- All connection-attempt times of a run in which the startup `init_mqtt()`
(attempted at time `t0`) fails — leaving `_mqtt = "retry"` while
`_mqtt_retry_ts` keeps its initial value `0` (code.py lines 195, 237) —
followed by the `_mqtt_loop` invocations in `events`. -/
def mqttAttemptTimes (t0 : Nat) (events : List (Nat × Bool)) : List Nat :=
  t0 :: retryAttempts 0 events

/-- `_mqtt_loop` (code.py lines 238-257) for a connected client, as an
exception-transparent computation: `_mqtt.loop()` may raise (`loopOk = false`),
which is caught; then `_mqtt.reconnect()` may raise (`reconnectOk = false`),
which is caught as well.  Every raise in the source is inside a `try/except`,
so every path ends in `Except.ok`; the `Except` codomain records where a raise
was possible. -/
def mqttLoopRun (ctl : MqttCtl) (retryTs now : Nat) (host : Option String)
    (connectOk loopOk reconnectOk : Bool) : Except String (MqttCtl × Nat) :=
  match ctl with
  | MqttCtl.off => Except.ok (MqttCtl.off, retryTs)
  | MqttCtl.retry =>
    if now - retryTs > 5 then Except.ok (init_mqtt host connectOk, now)
    else Except.ok (MqttCtl.retry, retryTs)
  | MqttCtl.client =>
    if loopOk then Except.ok (MqttCtl.client, retryTs)
    else if reconnectOk then Except.ok (MqttCtl.client, retryTs)
    else Except.ok (MqttCtl.client, retryTs)

/-- The device state threaded through the main loop: the dispatcher globals,
the heartbeat globals, `_mqtt` and `_mqtt_retry_ts`. -/
structure DeviceSt where
  amb : AmbianceSt
  heartbeat : BlinkSt
  mqtt : MqttCtl
  retry_ts : Nat
  deriving Repr, DecidableEq

/-- `_mqtt_loop()` (code.py lines 238-257) at the device level: `None` client
returns immediately with no side effects; `"retry"` runs the backoff branch;
a connected client services the socket, dispatching each inbound
`(topic, message)` through `_mqtt_on_message`. -/
def mqttLoopDev (root : String) (host : Option String) (d : DeviceSt) (now : Nat)
    (connectOk : Bool) (inbound : List (String × String)) : DeviceSt :=
  match d.mqtt with
  | MqttCtl.off => d
  | MqttCtl.retry =>
    if now - d.retry_ts > 5 then
      { d with mqtt := init_mqtt host connectOk, retry_ts := now }
    else d
  | MqttCtl.client =>
    { d with amb := inbound.foldl (fun a tm => mqttOnMessage root a tm.1 tm.2) d.amb }

/-- One iteration of the main `while True` loop (code.py lines 302-311):
`blink()`, then `_mqtt_loop()`, then `_init_script.loop()`, then
`_event_script.loop()` (the trailing pacing sleep has no state effect). -/
def loopIter (root : String) (host : Option String) (d : DeviceSt) (now : Nat)
    (connectOk : Bool) (inbound : List (String × String)) : DeviceSt :=
  let d1 := { d with heartbeat := blink d.heartbeat now }
  let d2 := mqttLoopDev root host d1 now connectOk inbound
  let d3 := { d2 with amb := { d2.amb with init_script := scriptTick d2.amb.init_script } }
  { d3 with amb := { d3.amb with event_script := scriptTick d3.amb.event_script } }

/-- The main loop run over a list of iterations, each with its clock reading,
connect outcome and inbound messages. -/
def loopRun (root : String) (host : Option String) (d : DeviceSt) :
    List (Nat × Bool × List (String × String)) → DeviceSt
  | [] => d
  | (now, connectOk, inbound) :: rest =>
    loopRun root host (loopIter root host d now connectOk inbound) rest

/-- A concrete dispatcher state used to instantiate universally quantified
theorems. -/
def sampleSt : AmbianceSt :=
  { neo := { max_len := 100, len := 100, brightness := 1 }
    init_script := { script := none, triggerCount := 0, ticks := 0 }
    event_script := { script := none, triggerCount := 0, ticks := 0 }
    last_trigger := none }

/-- A concrete device state (networking disabled) used to instantiate
universally quantified theorems. -/
def sampleDev : DeviceSt :=
  { amb := sampleSt
    heartbeat := { ledBrightness := 1/10, last_blink_ts := 0, next_blink := 1, dontBlink := false }
    mqtt := MqttCtl.off
    retry_ts := 0 }

/-! ### Helper lemmas -/

theorem append_left_cancel (r a b : String) (h : r ++ a = r ++ b) : a = b := by
  cases r with
  | mk rd =>
    cases a with
    | mk ad =>
      cases b with
      | mk bd =>
        simp only [HAppend.hAppend, Append.append, String.append] at h
        injection h with h
        exact congrArg String.mk (List.append_cancel_left h)

theorem topic_ne (r : String) {a b : String} (h : a ≠ b) : r ++ a ≠ r ++ b :=
  fun hc => h (append_left_cancel r a b hc)

theorem onMessage_length (root : String) (st : AmbianceSt) (m : String) :
    mqttOnMessage root st (root ++ "/length") m =
      (match pyInt m with
       | none => st
       | some v =>
         if 1 ≤ v ∧ v ≤ (st.neo.max_len : Int) then
           { st with neo := { st.neo with len := v.toNat } }
         else st) := by
  unfold mqttOnMessage mqttDispatch
  rw [if_pos rfl]
  cases pyInt m <;> rfl

theorem onTrigger_eq (root : String) (st : AmbianceSt) (m : String) :
    onTrigger root st m =
      { (if st.last_trigger = some m then st
         else { st with event_script := trigger st.event_script }) with
        last_trigger := some m } := by
  unfold onTrigger mqttOnMessage mqttDispatch
  rw [if_neg (topic_ne root (by decide)), if_neg (topic_ne root (by decide)),
      if_neg (topic_ne root (by decide)), if_neg (topic_ne root (by decide)),
      if_pos rfl]
  by_cases h : st.last_trigger = some m <;> simp [h]

/-! ### Claims -/

/-- C2: the claim states that a `/brightness` payload parsing to a float in
`[0,1]` updates the brightness.  The code cannot do this: line 222 assigns the
misspelled local `valie`, so line 223 reads the never-assigned local `value`
and raises `UnboundLocalError`, which the handler's `except` swallows.  This
theorem evaluates the embedded handler: every `/brightness` message, valid or
not, leaves the state (in particular the brightness) unchanged. -/
theorem ambiance_C2_brightness_bug (root : String) (st : AmbianceSt) (m : String) :
    mqttOnMessage root st (root ++ "/brightness") m = st := by
  unfold mqttOnMessage mqttDispatch
  rw [if_neg (topic_ne root (by decide)), if_pos rfl]
  cases pyFloat m <;> rfl

/-- C9: a message whose topic is none of the five recognized topics changes no
observable state: the handler's `elif` chain falls through and the state is
returned unchanged. -/
theorem ambiance_C9_unknown_topic (root : String) (st : AmbianceSt) (t m : String)
    (h1 : t ≠ root ++ "/length") (h2 : t ≠ root ++ "/brightness")
    (h3 : t ≠ root ++ "/script/init") (h4 : t ≠ root ++ "/script/event")
    (h5 : t ≠ root ++ "/event/trigger") :
    mqttOnMessage root st t m = st := by
  unfold mqttOnMessage mqttDispatch
  rw [if_neg h1, if_neg h2, if_neg h3, if_neg h4, if_neg h5]

/-- Witness for C9 at a concrete unrecognized topic. -/
theorem ambiance_C9_unknown_topic_witness :
    mqttOnMessage "ambiance" sampleSt "ambiance/other" "x" = sampleSt :=
  ambiance_C9_unknown_topic "ambiance" sampleSt "ambiance/other" "x"
    (by decide) (by decide) (by decide) (by decide) (by decide)

/-- C5: every exception an inbound message can raise during dispatch is
raised before any state change and is caught by the handler's
`try/except`: if the dispatch body exits with an exception, the state it
leaves behind is exactly the pre-message state, and the handler (which
catches the exception) returns that unchanged state — so a malformed payload
never propagates, never alters state for any topic, and never aborts the main
loop. -/
theorem ambiance_C5_dispatch_catch (root : String) (st : AmbianceSt) (t m : String)
    (s' : AmbianceSt) (h : mqttDispatch root st t m = Except.error s') :
    s' = st ∧ mqttOnMessage root st t m = st := by
  have h0 := h
  have hs : s' = st := by
    unfold mqttDispatch at h
    repeat' split at h
    all_goals first
      | exact (Except.error.inj h).symm
      | simp at h
  subst hs
  refine ⟨rfl, ?_⟩
  unfold mqttOnMessage
  rw [h0]

/-- Witness for C5: a non-numeric `/length` payload raises, is caught, and
leaves the state unchanged. -/
theorem ambiance_C5_dispatch_catch_witness :
    mqttDispatch "ambiance" sampleSt ("ambiance" ++ "/length") "abc"
      = Except.error sampleSt ∧
    mqttOnMessage "ambiance" sampleSt ("ambiance" ++ "/length") "abc" = sampleSt := by
  have h : mqttDispatch "ambiance" sampleSt ("ambiance" ++ "/length") "abc"
      = Except.error sampleSt := by
    unfold mqttDispatch
    rw [if_pos rfl, show pyInt "abc" = none from rfl]
  exact ⟨h, (ambiance_C5_dispatch_catch "ambiance" sampleSt ("ambiance" ++ "/length")
    "abc" sampleSt h).2⟩

/-- C4: a `/length` payload parsing to an integer in `[1, max_len]` sets the
buffer's active length to it; a payload parsing outside that range, or not
parsing at all, leaves the state unchanged; and every message (on any topic)
preserves the invariant `len ≤ max_len`. -/
theorem ambiance_C4_length_range (root : String) (st : AmbianceSt) (t m : String) :
    (∀ v : Int, pyInt m = some v → 1 ≤ v → v ≤ (st.neo.max_len : Int) →
      mqttOnMessage root st (root ++ "/length") m
        = { st with neo := { st.neo with len := v.toNat } }) ∧
    (∀ v : Int, pyInt m = some v → ¬(1 ≤ v ∧ v ≤ (st.neo.max_len : Int)) →
      mqttOnMessage root st (root ++ "/length") m = st) ∧
    (pyInt m = none → mqttOnMessage root st (root ++ "/length") m = st) ∧
    (st.neo.len ≤ st.neo.max_len →
      (mqttOnMessage root st t m).neo.len ≤ (mqttOnMessage root st t m).neo.max_len) := by
  refine ⟨?_, ?_, ?_, ?_⟩
  · intro v hv h1 h2
    rw [onMessage_length, hv]
    exact if_pos ⟨h1, h2⟩
  · intro v hv hout
    rw [onMessage_length, hv]
    exact if_neg hout
  · intro hv
    rw [onMessage_length, hv]
  · intro hinv
    unfold mqttOnMessage
    cases hd : mqttDispatch root st t m with
    | ok s2 =>
      unfold mqttDispatch at hd
      repeat' split at hd
      all_goals first
        | (injection hd with hd2; subst hd2; simp_all [apply_ite]; try omega)
        | simp at hd
    | error s2 =>
      unfold mqttDispatch at hd
      repeat' split at hd
      all_goals first
        | (injection hd with hd2; subst hd2; simp_all)
        | simp at hd

/-- Witness for C4: on a 100-pixel buffer, payload `"5"` sets the length,
payload `"500"` and payload `"abc"` are ignored, and the invariant holds
afterwards. -/
theorem ambiance_C4_length_range_witness :
    mqttOnMessage "ambiance" sampleSt ("ambiance" ++ "/length") "5"
      = { sampleSt with neo := { sampleSt.neo with len := 5 } } ∧
    mqttOnMessage "ambiance" sampleSt ("ambiance" ++ "/length") "500" = sampleSt ∧
    mqttOnMessage "ambiance" sampleSt ("ambiance" ++ "/length") "abc" = sampleSt ∧
    (mqttOnMessage "ambiance" sampleSt ("ambiance" ++ "/length") "5").neo.len
      ≤ (mqttOnMessage "ambiance" sampleSt ("ambiance" ++ "/length") "5").neo.max_len := by
  refine ⟨?_, ?_, ?_, ?_⟩
  · exact (ambiance_C4_length_range "ambiance" sampleSt ("ambiance" ++ "/length") "5").1
      5 rfl (by decide) ((by decide : (5 : Int) ≤ ((100 : Nat) : Int)))
  · exact (ambiance_C4_length_range "ambiance" sampleSt ("ambiance" ++ "/length") "500").2.1
      500 rfl (by decide)
  · exact (ambiance_C4_length_range "ambiance" sampleSt ("ambiance" ++ "/length")
      "abc").2.2.1 rfl
  · exact (ambiance_C4_length_range "ambiance" sampleSt ("ambiance" ++ "/length")
      "5").2.2.2 ((by decide : (100 : Nat) ≤ 100))

theorem onTrigger_count_new (root : String) (st : AmbianceSt) (m : String)
    (h : st.last_trigger ≠ some m) :
    (onTrigger root st m).event_script.triggerCount = st.event_script.triggerCount + 1 ∧
    (onTrigger root st m).last_trigger = some m := by
  rw [onTrigger_eq]
  simp [h, trigger]

theorem onTrigger_count_dup (root : String) (st : AmbianceSt) (m : String)
    (h : st.last_trigger = some m) :
    (onTrigger root st m).event_script.triggerCount = st.event_script.triggerCount ∧
    (onTrigger root st m).last_trigger = some m := by
  rw [onTrigger_eq]
  simp [h]

/-- C1: the trigger path deduplicates against `_last_trigger`: the very first
trigger message always fires (no prior payload has been seen); two consecutive
identical payloads fire `trigger()` exactly once; and a subsequent payload
that differs from the last seen payload fires it again. -/
theorem ambiance_C1_trigger_dedup (root : String) (st : AmbianceSt) (m m2 : String) :
    (st.last_trigger = none →
      (onTrigger root st m).event_script.triggerCount
        = st.event_script.triggerCount + 1) ∧
    (st.last_trigger ≠ some m →
      (onTrigger root (onTrigger root st m) m).event_script.triggerCount
        = st.event_script.triggerCount + 1) ∧
    (st.last_trigger ≠ some m → m2 ≠ m →
      (onTrigger root (onTrigger root (onTrigger root st m) m) m2).event_script.triggerCount
        = st.event_script.triggerCount + 2) := by
  refine ⟨?_, ?_, ?_⟩
  · intro h
    exact (onTrigger_count_new root st m (by simp [h])).1
  · intro h
    obtain ⟨hc1, hl1⟩ := onTrigger_count_new root st m h
    obtain ⟨hc2, _⟩ := onTrigger_count_dup root (onTrigger root st m) m hl1
    rw [hc2, hc1]
  · intro h hm
    obtain ⟨hc1, hl1⟩ := onTrigger_count_new root st m h
    obtain ⟨hc2, hl2⟩ := onTrigger_count_dup root (onTrigger root st m) m hl1
    obtain ⟨hc3, _⟩ := onTrigger_count_new root (onTrigger root (onTrigger root st m) m) m2
      (by rw [hl2]; simpa using Ne.symm hm)
    rw [hc3, hc2, hc1]

/-- Witness for C1 from the fresh state: `a`, `a`, `b` fires twice in total,
with the duplicated `a` firing once. -/
theorem ambiance_C1_trigger_dedup_witness :
    (onTrigger "ambiance" sampleSt "a").event_script.triggerCount = 1 ∧
    (onTrigger "ambiance" (onTrigger "ambiance" sampleSt "a") "a").event_script.triggerCount = 1 ∧
    (onTrigger "ambiance" (onTrigger "ambiance" (onTrigger "ambiance" sampleSt "a") "a") "b").event_script.triggerCount = 2 := by
  obtain ⟨p1, p2, p3⟩ := ambiance_C1_trigger_dedup "ambiance" sampleSt "a" "b"
  exact ⟨p1 rfl, p2 (by decide), p3 (by decide) (by decide)⟩

/-- C3, as stated, is false: the claim covers the first retry after a failed
startup `init_mqtt()` and the in-loop reconnect, but `_mqtt_retry_ts` starts
at `0`, so when the startup attempt fails at time 100 the first `_mqtt_loop`
call at time 100 already passes the `time.time() - _mqtt_retry_ts > 5` gate
and reconnects 0 seconds after the prior attempt. -/
theorem ambiance_C3_backoff_counterexample :
    mqttAttemptTimes 100 [(100, false)] = [100, 100] ∧
    ¬ List.Chain' (fun a b : Nat => 5 ≤ b - a) (mqttAttemptTimes 100 [(100, false)]) := by
  have h1 : mqttAttemptTimes 100 [(100, false)] = [100, 100] := rfl
  refine ⟨h1, ?_⟩
  rw [h1]
  intro hch
  have h2 := (List.chain'_cons.mp hch).1
  omega

/-- C3 (amended): any two consecutive reconnection attempts made from the
retry-backoff branch of `_mqtt_loop` are separated by more than 5 seconds,
measured from the recorded timestamp of the previous retry-branch attempt
(the startup attempt, gated against the initial timestamp `0`, and the
immediate in-loop reconnect after a loop error are not so gated). -/
theorem ambiance_C3_backoff_amended (ts : Nat) (evs : List (Nat × Bool)) :
    List.Chain (fun a b => a + 5 < b) ts (retryAttempts ts evs) := by
  induction evs generalizing ts with
  | nil => exact List.Chain.nil
  | cons e rest ih =>
    obtain ⟨now, ok⟩ := e
    unfold retryAttempts
    split
    · rename_i hgt
      refine List.Chain.cons (by omega) ?_
      split
      · exact List.Chain.nil
      · exact ih now
    · exact ih ts

theorem blink_dontBlink (s : BlinkSt) (now : Nat) (h : s.dontBlink = true) :
    blink s now = s := by
  unfold blink
  rw [h]
  rfl

theorem blink_flip (s : BlinkSt) (now : Nat) (h1 : s.dontBlink = false)
    (h2 : now - s.last_blink_ts > 1) :
    blink s now = { ledBrightness := if s.next_blink ≠ 0 then (1 : ℚ)/10 else 0,
                    last_blink_ts := now, next_blink := 1 - s.next_blink,
                    dontBlink := false } := by
  unfold blink
  rw [h1]
  simp only [Bool.false_eq_true, if_false, if_pos h2]

theorem blink_noflip (s : BlinkSt) (now : Nat) (h1 : s.dontBlink = false)
    (h2 : ¬ now - s.last_blink_ts > 1) :
    blink s now = { s with ledBrightness := if s.next_blink ≠ 0 then (1 : ℚ)/10 else 0 } := by
  unfold blink
  rw [h1]
  simp only [Bool.false_eq_true, if_false, if_neg h2]

theorem blinkFlipTimes_chain (s : BlinkSt) (ts : List Nat) :
    List.Chain (fun a b => a + 1 < b) s.last_blink_ts (blinkFlipTimes s ts) := by
  induction ts generalizing s with
  | nil => exact List.Chain.nil
  | cons t rest ih =>
    unfold blinkFlipTimes
    by_cases hd : s.dontBlink
    · rw [blink_dontBlink s t hd]
      rw [if_neg (fun hc : s.next_blink ≠ s.next_blink => hc rfl)]
      exact ih s
    · rw [Bool.not_eq_true] at hd
      by_cases hflip : t - s.last_blink_ts > 1
      · rw [blink_flip s t hd hflip]
        rw [if_pos (show (1 - s.next_blink ≠ s.next_blink) from by omega)]
        refine List.Chain.cons (by omega) ?_
        have h3 := ih { ledBrightness := if s.next_blink ≠ 0 then (1 : ℚ)/10 else 0,
                        last_blink_ts := t, next_blink := 1 - s.next_blink, dontBlink := false }
        simpa using h3
      · rw [blink_noflip s t hd hflip]
        rw [if_neg (fun hc : s.next_blink ≠ s.next_blink => hc rfl)]
        have h3 := ih { s with ledBrightness := if s.next_blink ≠ 0 then (1 : ℚ)/10 else 0 }
        simpa using h3

/-- C6, as stated, is false: the heartbeat does not halve the status-LED
brightness — in the off phase it sets it to `0`, not to half its prior value
(`0.1 / 2`). -/
theorem ambiance_C6_heartbeat_counterexample :
    (blink { ledBrightness := 1/10, last_blink_ts := 0, next_blink := 0,
             dontBlink := false } 2).ledBrightness = 0 ∧
    (0 : ℚ) ≠ (1/10 : ℚ) / 2 := by
  constructor
  · rfl
  · norm_num

/-- C6 (amended): the heartbeat, invoked every loop iteration, toggles the
status-LED brightness between `0.1` and fully off, flipping the phase only
when more than 1 second has elapsed since the previous flip; it performs no
LED change at all when `NEO_DONT_BLINK` is set, which `loop()` does exactly
when the strip pin is `ONBOARD` (status LED and effect strip are the same
device). -/
theorem ambiance_C6_heartbeat_amended (s : BlinkSt) (now : Nat) (ts : List Nat) :
    (s.dontBlink = true → blink s now = s) ∧
    neoDontBlink "ONBOARD" = true ∧
    (s.dontBlink = false →
      (blink s now).ledBrightness = (if s.next_blink ≠ 0 then (1 : ℚ)/10 else 0)) ∧
    List.Chain (fun a b => a + 1 < b) s.last_blink_ts (blinkFlipTimes s ts) := by
  refine ⟨blink_dontBlink s now, rfl, ?_, blinkFlipTimes_chain s ts⟩
  intro h1
  by_cases hflip : now - s.last_blink_ts > 1
  · rw [blink_flip s now h1 hflip]
  · rw [blink_noflip s now h1 hflip]

/-- Witness for C6: a suppressed call changes nothing; an active call in the
on phase shows brightness `0.1`; the flip times of a concrete run obey the
1-second spacing. -/
theorem ambiance_C6_heartbeat_amended_witness :
    blink { ledBrightness := 1/10, last_blink_ts := 0, next_blink := 1, dontBlink := true } 3
      = { ledBrightness := 1/10, last_blink_ts := 0, next_blink := 1, dontBlink := true } ∧
    (blink { ledBrightness := 1/10, last_blink_ts := 0, next_blink := 1, dontBlink := false } 3).ledBrightness = (1 : ℚ)/10 ∧
    List.Chain (fun a b => a + 1 < b) 0
      (blinkFlipTimes { ledBrightness := 1/10, last_blink_ts := 0, next_blink := 1, dontBlink := false } [2, 3, 4]) := by
  refine ⟨?_, ?_, ?_⟩
  · exact (ambiance_C6_heartbeat_amended
      { ledBrightness := 1/10, last_blink_ts := 0, next_blink := 1, dontBlink := true } 3 []).1 rfl
  · have := (ambiance_C6_heartbeat_amended
      { ledBrightness := 1/10, last_blink_ts := 0, next_blink := 1, dontBlink := false } 3 []).2.2.1 rfl
    simpa using this
  · exact (ambiance_C6_heartbeat_amended
      { ledBrightness := 1/10, last_blink_ts := 0, next_blink := 1, dontBlink := false } 3 [2, 3, 4]).2.2.2

theorem blinkErrorState_eq (k : Int) (n : Nat) : blinkErrorState k n = k - n := by
  induction n with
  | zero => simp [blinkErrorState]
  | succ n ih =>
    unfold blinkErrorState
    rw [ih]
    push_cast
    ring

/-- C7, as stated, is false: with the default argument `num_loop = -1` — the
value used by the WiFi-failure alert (code.py line 156) — the counter never
reaches `0`, so if the escape button is never pressed the `while` guard stays
true forever and `blink_error` does not terminate. -/
theorem ambiance_C7_blink_error_counterexample :
    ¬ blinkErrorTerminates (-1) (fun _ => true) := by
  rintro ⟨n, hn⟩
  simp [blinkErrorGuard, blinkErrorState_eq] at hn
  omega

/-- C7 (amended): for every nonnegative `num_loop` value `k` (all call sites
but the WiFi-failure one pass `0 ≤ num_loop ≤ 3`), `blink_error` polls for at
most `k` cycles and then returns even if the button is never pressed: the
guard is false at iteration `k`.  For the default `num_loop = -1` it blocks
until the button is pressed. -/
theorem ambiance_C7_blink_error_amended (k : Nat) (btn : Nat → Bool) :
    blinkErrorGuard (k : Int) btn k = false ∧ blinkErrorTerminates (k : Int) btn := by
  have hg : blinkErrorGuard (k : Int) btn k = false := by
    simp [blinkErrorGuard, blinkErrorState_eq]
  exact ⟨hg, ⟨k, hg⟩⟩

/-- C8, as stated, is false on two counts: a missing SSID raises `ValueError`
immediately without entering alert mode (`blink_error` is never called on
that path), and a WiFi connect failure with credentials present is also fatal
(the `ConnectionError` is re-raised after the alert), not only the missing
credentials. -/
theorem ambiance_C8_startup_counterexample :
    (init_wifi none true).alertMode = false ∧
    (init_wifi none true).result = WifiResult.errNoSsid ∧
    (init_wifi (some "ssid") false).result = WifiResult.errConnect ∧
    (init_wifi (some "ssid") false).alertMode = true := by
  exact ⟨rfl, rfl, rfl, rfl⟩

/-- C8 (amended): a missing SSID makes startup fatal (`ValueError`) without
entering alert mode; a failed WiFi connection with credentials present enters
alert mode and is then also fatal (the exception is re-raised); broker (MQTT)
failures are never fatal — `init_mqtt` catches its connect failure, and every
path of the per-tick `_mqtt_loop` body ends without an escaping exception. -/
theorem ambiance_C8_startup_amended (s : String) (connectOk loopOk reconnectOk : Bool)
    (ctl : MqttCtl) (ts now : Nat) (host : Option String) :
    init_wifi none connectOk = ⟨WifiResult.errNoSsid, false⟩ ∧
    init_wifi (some s) false = ⟨WifiResult.errConnect, true⟩ ∧
    init_wifi (some s) true = ⟨WifiResult.ok, false⟩ ∧
    (mqttLoopRun ctl ts now host connectOk loopOk reconnectOk).isOk = true := by
  refine ⟨rfl, rfl, rfl, ?_⟩
  cases ctl with
  | off => rfl
  | retry =>
    simp only [mqttLoopRun]
    split <;> rfl
  | client =>
    simp only [mqttLoopRun]
    cases loopOk <;> cases reconnectOk <;> rfl

theorem mqttLoopDev_off (root : String) (host : Option String) (d : DeviceSt)
    (now : Nat) (ok : Bool) (inbound : List (String × String))
    (h : d.mqtt = MqttCtl.off) :
    mqttLoopDev root host d now ok inbound = d := by
  unfold mqttLoopDev
  rw [h]

theorem loopIter_off (root : String) (host : Option String) (d : DeviceSt)
    (now : Nat) (ok : Bool) (inbound : List (String × String))
    (h : d.mqtt = MqttCtl.off) :
    (loopIter root host d now ok inbound).mqtt = MqttCtl.off ∧
    (loopIter root host d now ok inbound).amb.init_script.ticks
      = d.amb.init_script.ticks + 1 ∧
    (loopIter root host d now ok inbound).amb.event_script.ticks
      = d.amb.event_script.ticks + 1 := by
  unfold loopIter mqttLoopDev
  simp only [h]
  exact ⟨trivial, rfl, rfl⟩

/-- C10: with no broker host configured (absent or empty, both falsy to
Python's `if not host`), `init_mqtt` leaves `_mqtt = None`; every `_mqtt_loop`
call then returns immediately with no side effects, and the main loop keeps
ticking both scripts (once per iteration) without any connectivity. -/
theorem ambiance_C10_mqtt_disabled (root : String) (host : Option String)
    (ok : Bool) (d : DeviceSt) (now : Nat) (inbound : List (String × String))
    (evs : List (Nat × Bool × List (String × String))) :
    (pyTruthy host = false → init_mqtt host ok = MqttCtl.off) ∧
    (d.mqtt = MqttCtl.off → mqttLoopDev root host d now ok inbound = d) ∧
    (d.mqtt = MqttCtl.off →
      (loopRun root host d evs).mqtt = MqttCtl.off ∧
      (loopRun root host d evs).amb.init_script.ticks
        = d.amb.init_script.ticks + evs.length ∧
      (loopRun root host d evs).amb.event_script.ticks
        = d.amb.event_script.ticks + evs.length) := by
  refine ⟨?_, mqttLoopDev_off root host d now ok inbound, ?_⟩
  · intro h
    unfold init_mqtt
    rw [h]
    rfl
  · intro h
    induction evs generalizing d with
    | nil => simpa using ⟨h, rfl, rfl⟩
    | cons e rest ih =>
      obtain ⟨now2, ok2, inb⟩ := e
      obtain ⟨hm, hi, he⟩ := loopIter_off root host d now2 ok2 inb h
      obtain ⟨rm, ri, re⟩ := ih (loopIter root host d now2 ok2 inb) hm
      refine ⟨rm, ?_, ?_⟩
      · rw [show loopRun root host d ((now2, ok2, inb) :: rest)
            = loopRun root host (loopIter root host d now2 ok2 inb) rest from rfl,
          ri, hi]
        simp only [List.length_cons]
        omega
      · rw [show loopRun root host d ((now2, ok2, inb) :: rest)
            = loopRun root host (loopIter root host d now2 ok2 inb) rest from rfl,
          re, he]
        simp only [List.length_cons]
        omega

/-- Witness for C10: with no broker host, `_mqtt` stays off, a loop call is a
no-op, and two main-loop iterations tick both scripts twice. -/
theorem ambiance_C10_mqtt_disabled_witness :
    init_mqtt none true = MqttCtl.off ∧
    mqttLoopDev "ambiance" none sampleDev 7 true [] = sampleDev ∧
    (loopRun "ambiance" none sampleDev [(1, true, []), (2, true, [])]).mqtt = MqttCtl.off ∧
    (loopRun "ambiance" none sampleDev [(1, true, []), (2, true, [])]).amb.init_script.ticks = 2 ∧
    (loopRun "ambiance" none sampleDev [(1, true, []), (2, true, [])]).amb.event_script.ticks = 2 := by
  obtain ⟨p1, p2, p3⟩ := ambiance_C10_mqtt_disabled "ambiance" none true sampleDev 7 []
    [(1, true, []), (2, true, [])]
  obtain ⟨q1, q2, q3⟩ := p3 rfl
  exact ⟨p1 rfl, p2 rfl, q1, by simpa using q2, by simpa using q3⟩

end Ambiance
